import Mathlib

/-!
Verification development for the e-bloc Home Assistant integration
(`custom_components/e-bloc/sensor.py`).

The Python code is shallowly embedded: JSON values decoded by
`response.json()` become the inductive `JValue`; Python exceptions become
`Except PyErr`; numeric values (Python ints and floats) are modelled as
exact rationals `ℚ`; the aiohttp transport is modelled by an outcome type
describing what the network returned.  Each definition mirrors one Python
function or property of `sensor.py`.
-/

/-- Kinds of Python exceptions the embedded code can raise. -/
inductive PyErr where
  | keyError
  | indexError
  | typeError
  | valueError
  | attributeError
deriving DecidableEq, Repr

/-- A JSON value as produced by `response.json()`.  JSON numbers are
modelled as integers (the endpoints return integer-like fields); arrays do
not occur in any code path the claims touch and are omitted. -/
inductive JValue where
  | null
  | bool (b : Bool)
  | num (n : Int)
  | str (s : String)
  | obj (fields : List (String × JValue))

/-- Python truthiness of a JSON value (`bool(v)`). -/
def truthy : JValue → Bool
  | .null => false
  | .bool b => b
  | .num n => n != 0
  | .str s => s != ""
  | .obj fields => !fields.isEmpty

/-- Python `v == s` for a string literal `s`: only equal strings compare
equal; any other JSON value compares unequal (no exception). -/
def jEqStr (v : JValue) (s : String) : Bool :=
  match v with
  | .str t => t == s
  | _ => false

/-- Python `d[k]` on a JSON value: a `KeyError` when the key is absent from
a dict, a `TypeError` when the value is not a dict at all. -/
def jGet (v : JValue) (k : String) : Except PyErr JValue :=
  match v with
  | .obj fields =>
    match fields.lookup k with
    | some w => .ok w
    | none => .error .keyError
  | _ => .error .typeError

/-- Python `d.get(k, default)` on a JSON value: `AttributeError` when the
receiver is not a dict. -/
def pyGetD (v : JValue) (k : String) (dflt : JValue) : Except PyErr JValue :=
  match v with
  | .obj fields => .ok ((fields.lookup k).getD dflt)
  | _ => .error .attributeError

/-- Python `len(d)` for a dict value. -/
def jLen : JValue → Nat
  | .obj fields => fields.length
  | _ => 0

/-- The lazy generator inside `_get_luna_activa`:
`next((v['luna'] for k, v in first_three_months.items() if v['open'] == '0'), None)`.
For each entry it first evaluates `v['open']` (which can raise), compares
to `'0'`, and on a match evaluates and yields `v['luna']`. -/
def scanMonths : List JValue → Except PyErr (Option JValue)
  | [] => .ok none
  | v :: rest =>
    match jGet v "open" with
    | .error e => .error e
    | .ok o =>
      if jEqStr o "0" then
        match jGet v "luna" with
        | .error e => .error e
        | .ok l => .ok (some l)
      else scanMonths rest

/-- Embeds `list(first_three_months.values())[0]['luna']`: `IndexError` on an
empty dict, else the first entry's `'luna'`. -/
def fallbackLuna : List (String × JValue) → Except PyErr JValue
  | [] => .error .indexError
  | (_, v) :: _ => jGet v "luna"

/-- Embeds `EBlocDataUpdateCoordinator._get_luna_activa(lista_luni)`.
`first_three_months` keeps the first three entries in insertion order;
the generator result is combined with the fallback through Python `or`,
so a falsy yielded value (e.g. `''`) also falls through to the fallback.
A non-dict argument raises `AttributeError` at `lista_luni.keys()`. -/
def getLunaActiva (lista : JValue) : Except PyErr JValue :=
  match lista with
  | .obj fields =>
    let firstThree := fields.take 3
    match scanMonths (firstThree.map Prod.snd) with
    | .error e => .error e
    | .ok (some l) => if truthy l then .ok l else fallbackLuna firstThree
    | .ok none => fallbackLuna firstThree
  | _ => .error .attributeError

/-- A month entry as the month-list endpoint returns it: a dict with a
`'luna'` value and an `'open'` string flag, stored under some key. -/
structure Month where
  key : String
  luna : JValue
  open_ : String

/-- The JSON dict for one month entry. -/
def monthJ (m : Month) : JValue :=
  .obj [("luna", m.luna), ("open", .str m.open_)]

/-- A month list as a JSON dict, in insertion order. -/
def toLista (ms : List Month) : JValue :=
  .obj (ms.map fun m => (m.key, monthJ m))

/-- The first month whose `'open'` flag is the string `"0"`. -/
def firstClosed (ms : List Month) : Option Month :=
  ms.find? fun m => m.open_ == "0"

/-- Value of a digit string (helper for the `int`/`float` parsers). -/
def digitsVal (cs : List Char) : Nat :=
  cs.foldl (fun a c => a * 10 + (c.toNat - 48)) 0

/-- Parse a non-empty all-digit character list. -/
def parseDigits (cs : List Char) : Option Nat :=
  if cs.isEmpty then none
  else if cs.all Char.isDigit then some (digitsVal cs) else none

/-- Python `int(s)` on a string: an optional sign followed by digits
(surrounding whitespace and underscore separators are not modelled). -/
def parseIntStr (s : String) : Option Int :=
  match s.toList with
  | '-' :: cs => (parseDigits cs).map fun n => -(n : Int)
  | '+' :: cs => (parseDigits cs).map fun n => (n : Int)
  | cs => (parseDigits cs).map fun n => (n : Int)

/-- Python `int(v)`: `ValueError` on a non-numeric string, `TypeError` on
`None` or a dict; `int(True) = 1`. -/
def pyInt (v : JValue) : Except PyErr Int :=
  match v with
  | .num n => .ok n
  | .bool b => .ok (if b then 1 else 0)
  | .str s =>
    match parseIntStr s with
    | some n => .ok n
    | none => .error .valueError
  | .null => .error .typeError
  | .obj _ => .error .typeError

/-- Unsigned decimal literal `digits[.digits]` with at least one digit
(exponent, `inf` and `nan` forms are not modelled). -/
def parseUnsignedFloat (cs : List Char) : Option ℚ :=
  let ip := cs.takeWhile fun c => c != '.'
  let rest := cs.dropWhile fun c => c != '.'
  match rest with
  | [] => (parseDigits ip).map fun n => (n : ℚ)
  | _ :: fp =>
    if fp.any (fun c => c == '.') then none
    else if ip.all Char.isDigit && fp.all Char.isDigit && !(ip.isEmpty && fp.isEmpty) then
      some ((digitsVal ip : ℚ) + (digitsVal fp : ℚ) / (10 : ℚ) ^ fp.length)
    else none

/-- Python `float(s)` on a string. -/
def parseFloatStr (s : String) : Option ℚ :=
  match s.toList with
  | '-' :: cs => (parseUnsignedFloat cs).map fun q => -q
  | '+' :: cs => parseUnsignedFloat cs
  | cs => parseUnsignedFloat cs

/-- Python `float(v)`, with Python floats modelled as exact rationals:
`ValueError` on a non-numeric string, `TypeError` on `None` or a dict. -/
def pyFloat (v : JValue) : Except PyErr ℚ :=
  match v with
  | .num n => .ok (n : ℚ)
  | .bool b => .ok (if b then 1 else 0)
  | .str s =>
    match parseFloatStr s with
    | some q => .ok q
    | none => .error .valueError
  | .null => .error .typeError
  | .obj _ => .error .typeError

/-- Floor of a rational as an integer. -/
def rfloor (q : ℚ) : ℤ :=
  q.num.fdiv (q.den : ℤ)

/-- Round-half-to-even on an exact rational — Python's `round` semantics
on the exactly representable values the claims evaluate. -/
def rdHalfEven (q : ℚ) : ℤ :=
  let f := rfloor q
  let frac := q - (f : ℚ)
  if frac < 1 / 2 then f
  else if 1 / 2 < frac then f + 1
  else if f % 2 = 0 then f else f + 1

/-- Python `round(q, d)`. -/
def pyRound (q : ℚ) (d : ℕ) : ℚ :=
  ((rdHalfEven (q * (10 : ℚ) ^ d) : ℤ) : ℚ) / (10 : ℚ) ^ d

/-- Python `str(v)` inside an f-string.  (For a dict Python would print
its repr; no claim inspects that case, a placeholder is used.) -/
def pyStr : JValue → String
  | .null => "None"
  | .bool b => if b then "True" else "False"
  | .num n => toString n
  | .str s => s
  | .obj _ => "<dict>"

/-- Embeds `f"{n / 100:.2f}"` for an integer cents value `n`: exact two-decimal
rendering of `n / 100`. -/
def fmt2 (n : ℤ) : String :=
  (if n < 0 then "-" else "") ++ toString (n.natAbs / 100) ++ "." ++
    (if n.natAbs % 100 < 10 then "0" else "") ++ toString (n.natAbs % 100)

/-- What the network returned for one data POST: a transport failure, or a
response with a status and a body whose JSON decoding succeeded or not. -/
inductive FetchOutcome where
  | transportError
  | response (status : Nat) (body : Except String JValue)

/-- What the network returned for the login POST: a transport failure, or
a response with a status and the text body (reading it may itself fail). -/
inductive AuthOutcome where
  | transportError
  | response (status : Nat) (text : Except String String)

/-- Embeds `pat.isPrefixOf l` at some position of `l` — Python `pat in l`. -/
def hasSub (pat : List Char) : List Char → Bool
  | [] => pat.isEmpty
  | l@(_ :: rest) => pat.isPrefixOf l || hasSub pat rest

/-- Python `pat in s` for strings. -/
def strContainsSub (s pat : String) : Bool :=
  hasSub pat.toList s.toList

/-- The login success marker `_authenticate` looks for. -/
def markerLogin : String := "Acces online proprietari"

/-- Embeds `EBlocDataUpdateCoordinator._authenticate`: returns the raised
`UpdateFailed` message or success, together with the new value of
`self.authenticated` (set to `True` only on success; `response.text()` is
only awaited after the status check, mirroring the `and` short-circuit). -/
def authenticate (out : AuthOutcome) (prevAuth : Bool) : Except String Unit × Bool :=
  match out with
  | .transportError => (.error "Eroare la autentificare: transport", prevAuth)
  | .response status txt =>
    if status == 200 then
      match txt with
      | .error _ => (.error "Eroare la autentificare: transport", prevAuth)
      | .ok t =>
        if strContainsSub t markerLogin then (.ok (), true)
        else (.error "Eroare la autentificare: Autentificare eșuată.", prevAuth)
    else (.error "Eroare la autentificare: Autentificare eșuată.", prevAuth)

/-- Embeds `EBlocDataUpdateCoordinator._fetch_data`: the JSON body on a 200
response, an empty dict on any other status, JSON parse failure or
transport error — it never raises. -/
def fetchData (out : FetchOutcome) : JValue :=
  match out with
  | .transportError => .obj []
  | .response status body =>
    if status == 200 then
      match body with
      | .ok j => j
      | .error _ => .obj []
    else .obj []

/-- The immutable configuration of the integration. -/
structure Config where
  pIdAsoc : String
  pIdAp : String
  pUser : String
  pPass : String

/-- The snapshot dict returned by `_async_update_data`. -/
structure Snapshot where
  home : JValue
  index : JValue
  receipts : JValue
  lista_luni : JValue
  luna_activa : JValue

/-- Mutable coordinator state: the `authenticated` flag and the last
published snapshot (`self.data`, `None` until the first success). -/
structure CoordState where
  authenticated : Bool
  data : Option Snapshot

/-- One refresh cycle's network environment: the login outcome and, for
each URL and payload, the data-POST outcome. -/
structure Env where
  login : AuthOutcome
  fetch : String → List (String × JValue) → FetchOutcome

/-- Modelled from the spec: the endpoint URL constants live in `const.py`,
which is not part of the sources; only their identities matter. -/
def URL_LOGIN : String := "URL_LOGIN"

def URL_HOME : String := "URL_HOME"

def URL_INDEX : String := "URL_INDEX"

def URL_RECEIPTS : String := "URL_RECEIPTS"

def URL_LISTA_LUNI : String := "URL_LISTA_LUNI"

/-- Message text for a Python exception reaching the outer handler. -/
def pyErrMsg : PyErr → String
  | .keyError => "KeyError"
  | .indexError => "IndexError"
  | .typeError => "TypeError"
  | .valueError => "ValueError"
  | .attributeError => "AttributeError"

/-- Embeds `EBlocDataUpdateCoordinator._async_update_data`: authenticate if
needed, fetch the month list, derive the active month, fetch the three
month-scoped datasets and return the snapshot; any exception is wrapped
into one `UpdateFailed` (the `.error` case), in which case the published
snapshot (`self.data`) is not replaced.  The result pairs the coordinator
state after the cycle with the cycle outcome. -/
def updateCycle (cfg : Config) (st : CoordState) (env : Env) : CoordState × Except String Snapshot :=
  let ar :=
    if st.authenticated then (Except.ok (), true)
    else authenticate env.login st.authenticated
  match ar with
  | (.error e, auth') =>
    ({ st with authenticated := auth' }, .error ("Eroare la actualizarea datelor: " ++ e))
  | (.ok (), auth') =>
    let initialPayload := [("pIdAsoc", JValue.str cfg.pIdAsoc), ("pIdAp", JValue.str cfg.pIdAp)]
    let lista := fetchData (env.fetch URL_LISTA_LUNI initialPayload)
    match getLunaActiva lista with
    | .error e =>
      ({ st with authenticated := auth' },
        .error ("Eroare la actualizarea datelor: " ++ pyErrMsg e))
    | .ok luna =>
      let payload :=
        [("pIdAsoc", JValue.str cfg.pIdAsoc), ("pIdAp", JValue.str cfg.pIdAp), ("pLuna", luna)]
      let snap : Snapshot :=
        { home := fetchData (env.fetch URL_HOME payload)
          index := fetchData (env.fetch URL_INDEX payload)
          receipts := fetchData (env.fetch URL_RECEIPTS payload)
          lista_luni := lista
          luna_activa := luna }
      ({ authenticated := auth', data := some snap }, .ok snap)

/-- Embeds `ClientSensor.native_value`:
`data.get("home", {}).get("1", {}).get("cod_client")`. -/
def clientNative (s : Snapshot) : Except PyErr JValue := do
  let d ← pyGetD s.home "1" (.obj [])
  pyGetD d "cod_client" .null

/-- Embeds `ClientSensor.extra_state_attributes`: the attribute dict, raising
whatever `data.get`/`int` raise (notably `int(data.get('datorie', 0))` on
a non-numeric present value). -/
def clientAttrs (s : Snapshot) : Except PyErr (List (String × JValue)) := do
  let d ← pyGetD s.home "1" (.obj [])
  let ap ← pyGetD d "ap" .null
  let pers ← pyGetD d "nr_pers_afisat" .null
  let datorieRaw ← pyGetD d "datorie" (.num 0)
  let datorie ← pyInt datorieRaw
  let ultima ← pyGetD d "ultima_zi_plata" .null
  let contoare ← pyGetD d "contoare_citite" .null
  let cs ← pyGetD d "citire_contoare_start" (.str "")
  let ce ← pyGetD d "citire_contoare_end" (.str "")
  let lv ← pyGetD d "luna_veche" .null
  let nr ← pyGetD d "nivel_restanta" .null
  pure [("Apartament", ap), ("Persoane", pers),
    ("Restanță", .str (fmt2 datorie ++ " RON")),
    ("Ultima zi plată", ultima),
    ("Contor trimis", .str (if jEqStr contoare "1" then "Da" else "Nu")),
    ("Perioadă citire", .str (pyStr cs ++ " - " ++ pyStr ce)),
    ("Luna veche", lv),
    ("Nivel restanță", nr)]

/-- Embeds `PlatiSensor.native_value`: `len(receipts)` when the receipts dataset
is a dict, else `0`. -/
def platiNative (s : Snapshot) : Nat :=
  jLen s.receipts

/-- One line of `PlatiSensor.extra_state_attributes`:
`f"{r.get('numar', '')} - {r.get('data', '')} - {int(r.get('suma', 0))/100:.2f} RON"`. -/
def receiptLine (r : JValue) : Except PyErr String := do
  let numar ← pyGetD r "numar" (.str "")
  let dataF ← pyGetD r "data" (.str "")
  let sumaRaw ← pyGetD r "suma" (.num 0)
  let suma ← pyInt sumaRaw
  pure (pyStr numar ++ " - " ++ pyStr dataF ++ " - " ++ fmt2 suma ++ " RON")

/-- The `enumerate(receipts.values(), 1)` comprehension. -/
def receiptLines (i : Nat) : List JValue → Except PyErr (List (String × JValue))
  | [] => .ok []
  | r :: rest => do
    let line ← receiptLine r
    let others ← receiptLines (i + 1) rest
    pure (("Chitanța " ++ toString i, JValue.str line) :: others)

/-- Embeds `PlatiSensor.extra_state_attributes`: an empty dict when the receipts
dataset is not a dict, else the numbered receipt lines. -/
def platiAttrs (s : Snapshot) : Except PyErr (List (String × JValue)) :=
  match s.receipts with
  | .obj fields => receiptLines 1 (fields.map Prod.snd)
  | _ => .ok []

/-- Embeds `RestantaSensor.native_value`:
`round(int(datorie)/100, 2) if datorie else 0.00`. -/
def restantaNative (s : Snapshot) : Except PyErr ℚ := do
  let d ← pyGetD s.home "1" (.obj [])
  let datorie ← pyGetD d "datorie" .null
  if truthy datorie then
    let n ← pyInt datorie
    pure (pyRound ((n : ℚ) / 100) 2)
  else
    pure 0

/-- Embeds `ApaReceSensor.native_value`:
`round(float(data.get("index_nou", 0)) / 1000, 3)` with `ValueError` and
`TypeError` degraded to `None` (an `AttributeError` from a non-dict
container is not caught and propagates). -/
def apaReceNative (s : Snapshot) : Except PyErr (Option ℚ) := do
  let d ← pyGetD s.index "2" (.obj [])
  let raw ← pyGetD d "index_nou" (.num 0)
  match pyFloat raw with
  | .ok q => pure (some (pyRound (q / 1000) 3))
  | .error _ => pure none

/-- Does `pyInt` succeed on this value? -/
def intOk (v : JValue) : Bool :=
  match pyInt v with
  | .ok _ => true
  | .error _ => false

/-- The home dataset shape under which the client view's reads cannot
raise: a dict whose `"1"` entry, when present, is a dict whose
`"datorie"` field, when present, is `int`-convertible. -/
def wfHome (h : JValue) : Bool :=
  match h with
  | .obj fields =>
    match fields.lookup "1" with
    | none => true
    | some (.obj gs) =>
      (match gs.lookup "datorie" with
       | none => true
       | some v => intOk v)
    | some _ => false
  | _ => false

/-- The receipts dataset shape under which the payments view's reads
cannot raise: either not a dict at all (short-circuited to an empty
result), or a dict of dicts whose `"suma"` fields, when present, are
`int`-convertible. -/
def wfReceipts (r : JValue) : Bool :=
  match r with
  | .obj fields =>
    fields.all fun p =>
      match p.2 with
      | .obj gs =>
        (match gs.lookup "suma" with
         | none => true
         | some v => intOk v)
      | _ => false
  | _ => true

/-- First entry's `'luna'` of a structured month list (the fallback). -/
def fbMonths : List Month → Except PyErr JValue
  | [] => .error .indexError
  | m :: _ => .ok m.luna


/-- helper -/
theorem jGet_monthJ_open (m : Month) : jGet (monthJ m) "open" = .ok (.str m.open_) := rfl

/-- helper -/
theorem jGet_monthJ_luna (m : Month) : jGet (monthJ m) "luna" = .ok m.luna := rfl

/-- helper -/
theorem scanMonths_map (ms : List Month) :
    scanMonths (ms.map monthJ) = .ok ((firstClosed ms).map Month.luna) := by
  induction ms with
  | nil => rfl
  | cons m rest ih =>
    cases hob : (m.open_ == "0") with
    | true =>
      simp [scanMonths, jGet_monthJ_open, jGet_monthJ_luna, jEqStr, firstClosed,
        List.find?, hob]
    | false =>
      simp only [List.map_cons, scanMonths, jGet_monthJ_open, jEqStr, hob,
        Bool.false_eq_true, if_false, ih, firstClosed, List.find?]

/-- helper -/
theorem fallbackLuna_map (l : List Month) :
    fallbackLuna (l.map fun m => (m.key, monthJ m)) = fbMonths l := by
  cases l with
  | nil => rfl
  | cons m rest => simp [fallbackLuna, fbMonths, jGet_monthJ_luna]

/-- helper: the whole function on a structured month list. -/
theorem getLunaActiva_toLista (ms : List Month) :
    getLunaActiva (toLista ms) =
      match (firstClosed (ms.take 3)).map Month.luna with
      | some l => if truthy l = true then .ok l else fbMonths (ms.take 3)
      | none => fbMonths (ms.take 3) := by
  have hmap : (List.take 3 (ms.map fun m => (m.key, monthJ m))).map Prod.snd
      = (ms.take 3).map monthJ := by
    rw [← List.map_take, List.map_map]
    rfl
  have htake : List.take 3 (ms.map fun m => (m.key, monthJ m))
      = (ms.take 3).map fun m => (m.key, monthJ m) := by
    rw [← List.map_take]
  have hred : getLunaActiva (toLista ms) =
      match scanMonths ((List.take 3 (ms.map fun m => (m.key, monthJ m))).map Prod.snd) with
      | .error e => .error e
      | .ok (some l) =>
        if truthy l then .ok l else fallbackLuna (List.take 3 (ms.map fun m => (m.key, monthJ m)))
      | .ok none => fallbackLuna (List.take 3 (ms.map fun m => (m.key, monthJ m))) := rfl
  rw [hred, hmap, htake, scanMonths_map, fallbackLuna_map]
  cases hfc : (firstClosed (ms.take 3)).map Month.luna with
  | none => simp
  | some l => cases ht : truthy l <;> simp [ht]

/-- C1 (amended): on a non-empty month list `_get_luna_activa` considers only
the first three entries in insertion order; it returns the `'luna'` of the
first of those entries whose `'open'` flag equals the string `"0"` provided
that `'luna'` value is truthy (for a string: non-empty); if no entry among
the first three has `'open' == "0"`, it returns the first entry's `'luna'`;
entries beyond index 3 never influence the result.  (The truthiness proviso
is what the `or` fallback in the source forces; see the counterexample.) -/
theorem getLunaActiva_first_three (m0 : Month) (tl : List Month) :
    (∀ m, firstClosed ((m0 :: tl).take 3) = some m → truthy m.luna = true →
      getLunaActiva (toLista (m0 :: tl)) = .ok m.luna) ∧
    (firstClosed ((m0 :: tl).take 3) = none →
      getLunaActiva (toLista (m0 :: tl)) = .ok m0.luna) ∧
    getLunaActiva (toLista (m0 :: tl)) = getLunaActiva (toLista ((m0 :: tl).take 3)) := by
  refine ⟨?_, ?_, ?_⟩
  · intro m hm ht
    rw [getLunaActiva_toLista, hm]
    simp [ht]
  · intro hm
    rw [getLunaActiva_toLista, hm]
    show _ = fbMonths (m0 :: tl.take 2)
    rfl
  · rw [getLunaActiva_toLista, getLunaActiva_toLista, List.take_take]
    norm_num

/-- C1 witness: a concrete two-entry list whose second entry is the first
closed one; the function returns its month id `"B"`. -/
theorem getLunaActiva_first_three_witness :
    getLunaActiva (toLista [⟨"1", .str "A", "1"⟩, ⟨"2", .str "B", "0"⟩]) = .ok (.str "B") :=
  (getLunaActiva_first_three ⟨"1", .str "A", "1"⟩ [⟨"2", .str "B", "0"⟩]).1
    ⟨"2", .str "B", "0"⟩ rfl rfl

/-- C1 counterexample: the second entry is the first of the first three with
`'open' == "0"`, its month id is the empty string, yet the function returns
`"A"` (the fallback: the very first entry's month id), not `""` — the
claim's unconditional description is false for falsy month ids. -/
theorem getLunaActiva_falsy_luna_cex :
    getLunaActiva (toLista [⟨"1", .str "A", "1"⟩, ⟨"2", .str "", "0"⟩]) = .ok (.str "A")
      ∧ "A" ≠ "" := ⟨rfl, by decide⟩

/-- C10: when the first entry among the first three with `'open' == "0"` has
a falsy `'luna'` value (empty string, `0`, `None`, ...), `_get_luna_activa`
does not return that value: the truthiness `or` makes it fall back to the
very first entry's `'luna'`. -/
theorem getLunaActiva_falsy_fallback (m0 : Month) (tl : List Month) (m : Month)
    (hfind : firstClosed ((m0 :: tl).take 3) = some m)
    (hfalsy : truthy m.luna = false) :
    getLunaActiva (toLista (m0 :: tl)) = .ok m0.luna := by
  rw [getLunaActiva_toLista, hfind]
  show (if truthy m.luna = true then _ else _) = _
  rw [hfalsy]
  show fbMonths (m0 :: tl.take 2) = _
  rfl

/-- C10 witness: the first closed entry has month id `""`; the function
returns the first entry's `"A"`. -/
theorem getLunaActiva_falsy_fallback_witness :
    getLunaActiva (toLista [⟨"1", .str "A", "1"⟩, ⟨"2", .str "", "0"⟩, ⟨"3", .str "C", "0"⟩])
      = .ok (.str "A") :=
  getLunaActiva_falsy_fallback ⟨"1", .str "A", "1"⟩ [⟨"2", .str "", "0"⟩, ⟨"3", .str "C", "0"⟩]
    ⟨"2", .str "", "0"⟩ rfl rfl

/-- C5 (code divergence): on an empty month list `_get_luna_activa` does not
return an absent value — `list(first_three_months.values())[0]` raises
`IndexError` (surfacing as `UpdateFailed` for the cycle), contradicting the
spec's stated intent of a null active month. -/
theorem getLunaActiva_empty_raises :
    getLunaActiva (.obj []) = .error .indexError := rfl

/-- C2: `_fetch_data` is total and never raises: on a 200 response with a
JSON body it returns the decoded body; on any non-200 status, on a JSON
parse failure, and on a transport error it returns the empty map. -/
theorem fetchData_degrade_to_empty :
    (∀ j, fetchData (.response 200 (.ok j)) = j) ∧
    (∀ status body, status ≠ 200 → fetchData (.response status body) = .obj []) ∧
    (∀ status e, fetchData (.response status (.error e)) = .obj []) ∧
    fetchData .transportError = .obj [] := by
  refine ⟨fun j => rfl, ?_, ?_, rfl⟩
  · intro status body h
    simp [fetchData, h]
  · intro status e
    cases h : (status == 200) <;> simp [fetchData, h]

/-- C2 witness: a 404 response degrades to the empty map. -/
theorem fetchData_degrade_witness :
    fetchData (.response 404 (.ok (.num 1))) = .obj [] :=
  fetchData_degrade_to_empty.2.1 404 (.ok (.num 1)) (by decide)

/-- C3: `_async_update_data` publishes atomically: either the cycle returns
a snapshot whose five fields all come from this cycle's fetches (month list
from the initial payload, active month derived from it, and home / index /
receipts fetched with that same active month) and that snapshot becomes the
published data, or the cycle fails with `UpdateFailed` and the previously
published snapshot is left untouched. -/
theorem updateCycle_atomic (cfg : Config) (st : CoordState) (env : Env) :
    (∃ snap, (updateCycle cfg st env).2 = .ok snap ∧
      (updateCycle cfg st env).1.data = some snap ∧
      snap.lista_luni = fetchData (env.fetch URL_LISTA_LUNI
        [("pIdAsoc", .str cfg.pIdAsoc), ("pIdAp", .str cfg.pIdAp)]) ∧
      getLunaActiva snap.lista_luni = .ok snap.luna_activa ∧
      snap.home = fetchData (env.fetch URL_HOME
        [("pIdAsoc", .str cfg.pIdAsoc), ("pIdAp", .str cfg.pIdAp), ("pLuna", snap.luna_activa)]) ∧
      snap.index = fetchData (env.fetch URL_INDEX
        [("pIdAsoc", .str cfg.pIdAsoc), ("pIdAp", .str cfg.pIdAp), ("pLuna", snap.luna_activa)]) ∧
      snap.receipts = fetchData (env.fetch URL_RECEIPTS
        [("pIdAsoc", .str cfg.pIdAsoc), ("pIdAp", .str cfg.pIdAp), ("pLuna", snap.luna_activa)])) ∨
    ((∃ e, (updateCycle cfg st env).2 = .error e) ∧
      (updateCycle cfg st env).1.data = st.data) := by
  rcases hA : (if st.authenticated then (Except.ok (), true)
      else authenticate env.login st.authenticated) with ⟨res, auth'⟩
  cases res with
  | error e =>
    right
    refine ⟨⟨"Eroare la actualizarea datelor: " ++ e, ?_⟩, ?_⟩ <;> simp [updateCycle, hA]
  | ok u =>
    cases u
    cases hL : getLunaActiva (fetchData (env.fetch URL_LISTA_LUNI
        [("pIdAsoc", .str cfg.pIdAsoc), ("pIdAp", .str cfg.pIdAp)])) with
    | error e =>
      right
      refine ⟨⟨"Eroare la actualizarea datelor: " ++ pyErrMsg e, ?_⟩, ?_⟩ <;>
        simp [updateCycle, hA, hL]
    | ok luna =>
      left
      refine ⟨Snapshot.mk
        (fetchData (env.fetch URL_HOME
          [("pIdAsoc", .str cfg.pIdAsoc), ("pIdAp", .str cfg.pIdAp), ("pLuna", luna)]))
        (fetchData (env.fetch URL_INDEX
          [("pIdAsoc", .str cfg.pIdAsoc), ("pIdAp", .str cfg.pIdAp), ("pLuna", luna)]))
        (fetchData (env.fetch URL_RECEIPTS
          [("pIdAsoc", .str cfg.pIdAsoc), ("pIdAp", .str cfg.pIdAp), ("pLuna", luna)]))
        (fetchData (env.fetch URL_LISTA_LUNI
          [("pIdAsoc", .str cfg.pIdAsoc), ("pIdAp", .str cfg.pIdAp)]))
        luna, ?_, ?_, rfl, hL, rfl, rfl, rfl⟩ <;>
        simp [updateCycle, hA, hL]

/-- C4: `_authenticate` succeeds and sets `authenticated := True` exactly
when the login POST returns status 200 and the body contains the marker
`"Acces online proprietari"`; in every other case (other status, missing
marker, transport or body-read error) it raises and the flag stays `False`,
and the whole refresh cycle aborts with `UpdateFailed`, leaving the state
unchanged. -/
theorem authenticate_marker_iff :
    (∀ out, ((authenticate out false).1 = .ok () ∧ (authenticate out false).2 = true) ↔
      ∃ t, out = .response 200 (.ok t) ∧ strContainsSub t markerLogin = true) ∧
    (∀ out e, (authenticate out false).1 = .error e → (authenticate out false).2 = false) ∧
    (∀ cfg d env e, (authenticate env.login false).1 = .error e →
      (updateCycle cfg ⟨false, d⟩ env).2 = .error ("Eroare la actualizarea datelor: " ++ e) ∧
      (updateCycle cfg ⟨false, d⟩ env).1 = ⟨false, d⟩) := by
  have hsplit : ∀ out, authenticate out false = (Except.ok (), true) ∨
      (authenticate out false).2 = false := by
    intro out
    cases out with
    | transportError => right; rfl
    | response s txt =>
      by_cases hs : (s == 200) = true
      · cases txt with
        | error te => right; simp [authenticate, hs]
        | ok t =>
          by_cases hm : strContainsSub t markerLogin = true
          · left; simp [authenticate, hs, hm]
          · right; simp [authenticate, hs, hm]
      · right
        have hs' : (s == 200) = false := by simpa using hs
        simp [authenticate, hs']
  have h2 : ∀ out e, (authenticate out false).1 = .error e →
      (authenticate out false).2 = false := by
    intro out e h
    rcases hsplit out with heq | hfl
    · rw [heq] at h; simp at h
    · exact hfl
  refine ⟨?_, h2, ?_⟩
  · intro out
    constructor
    · rintro ⟨h1, hb⟩
      cases out with
      | transportError => simp [authenticate] at h1
      | response s txt =>
        by_cases hs : (s == 200) = true
        · cases txt with
          | error te => simp [authenticate, hs] at h1
          | ok t =>
            by_cases hm : strContainsSub t markerLogin = true
            · have hs200 : s = 200 := by simpa using hs
              exact ⟨t, by rw [hs200], hm⟩
            · simp [authenticate, hs, hm] at h1
        · have hs' : (s == 200) = false := by simpa using hs
          simp [authenticate, hs'] at h1
    · rintro ⟨t, rfl, hm⟩
      constructor <;> simp [authenticate, hm]
  · intro cfg d env e h
    have hp : authenticate env.login false = (Except.error e, false) := by
      rcases hsplit env.login with heq | hfl
      · rw [heq] at h; simp at h
      · have : authenticate env.login false
            = ((authenticate env.login false).1, (authenticate env.login false).2) := rfl
        rw [this, h, hfl]
    constructor <;> simp [updateCycle, hp]

/-- C4 witness: concrete success (marker present, status 200) and concrete
failure (status 500) outcomes, the latter also aborting a full cycle. -/
theorem authenticate_marker_iff_witness :
    ((authenticate (.response 200 (.ok markerLogin)) false).1 = .ok () ∧
      (authenticate (.response 200 (.ok markerLogin)) false).2 = true) ∧
    (authenticate (.response 500 (.ok "x")) false).2 = false ∧
    (updateCycle ⟨"a", "u", "us", "pw"⟩ ⟨false, none⟩
        ⟨.response 500 (.ok "x"), fun _ _ => .transportError⟩).2 =
      .error ("Eroare la actualizarea datelor: " ++
        "Eroare la autentificare: Autentificare eșuată.") :=
  ⟨(authenticate_marker_iff.1 _).mpr ⟨markerLogin, rfl, by decide⟩,
   authenticate_marker_iff.2.1 _ _ rfl,
   (authenticate_marker_iff.2.2 ⟨"a", "u", "us", "pw"⟩ none
     ⟨.response 500 (.ok "x"), fun _ _ => .transportError⟩
     "Eroare la autentificare: Autentificare eșuată." rfl).1⟩

/-- C6: once `authenticated` is `True` it never becomes `False` again: any
refresh cycle (failing or not) leaves it `True`, and such a cycle skips the
login entirely — its outcome does not depend on the login outcome. -/
theorem authenticated_never_reset (cfg : Config) (st : CoordState) (env : Env)
    (h : st.authenticated = true) :
    (updateCycle cfg st env).1.authenticated = true ∧
    (∀ env2 : Env, env2.fetch = env.fetch →
      updateCycle cfg st env2 = updateCycle cfg st env) := by
  constructor
  · cases hL : getLunaActiva (fetchData (env.fetch URL_LISTA_LUNI
      [("pIdAsoc", .str cfg.pIdAsoc), ("pIdAp", .str cfg.pIdAp)])) <;>
      simp [updateCycle, h, hL]
  · intro env2 hf
    simp [updateCycle, h, hf]

/-- C6 witness: a cycle whose every fetch fails still leaves the flag set. -/
theorem authenticated_never_reset_witness :
    (updateCycle ⟨"a", "u", "us", "pw"⟩ ⟨true, none⟩
      ⟨.transportError, fun _ _ => .transportError⟩).1.authenticated = true :=
  (authenticated_never_reset ⟨"a", "u", "us", "pw"⟩ ⟨true, none⟩
    ⟨.transportError, fun _ _ => .transportError⟩ rfl).1

/-- helper: rounding an integer changes nothing. -/
theorem rdHalfEven_intCast (n : ℤ) : rdHalfEven (n : ℚ) = n := by
  norm_num [rdHalfEven, rfloor, Rat.num_intCast, Rat.den_intCast, Int.fdiv_one]

/-- helper: rounding a value already at `d` decimals changes nothing. -/
theorem pyRound_exact (n : ℤ) (d : ℕ) :
    pyRound ((n : ℚ) / (10 : ℚ) ^ d) d = (n : ℚ) / (10 : ℚ) ^ d := by
  have h10 : ((10 : ℚ) ^ d) ≠ 0 := by positivity
  unfold pyRound
  rw [div_mul_cancel₀ _ h10, rdHalfEven_intCast]

/-- C8: `RestantaSensor.native_value` converts the raw integer-cents
`'datorie'` field by dividing by 100 with two-decimal rounding, so the value
shown for a raw `n` is exactly `n / 100`; an absent or `None` raw value
yields `0.00`. -/
theorem restanta_cents_projection :
    (∀ (hf gf : List (String × JValue)) (idx rcp ll la : JValue) (n : ℤ),
      hf.lookup "1" = some (.obj gf) → gf.lookup "datorie" = some (.num n) → n ≠ 0 →
      restantaNative ⟨.obj hf, idx, rcp, ll, la⟩ = .ok ((n : ℚ) / 100)) ∧
    (∀ (hf gf : List (String × JValue)) (idx rcp ll la : JValue),
      hf.lookup "1" = some (.obj gf) → gf.lookup "datorie" = none →
      restantaNative ⟨.obj hf, idx, rcp, ll, la⟩ = .ok 0) ∧
    (∀ (hf gf : List (String × JValue)) (idx rcp ll la : JValue),
      hf.lookup "1" = some (.obj gf) → gf.lookup "datorie" = some .null →
      restantaNative ⟨.obj hf, idx, rcp, ll, la⟩ = .ok 0) := by
  refine ⟨?_, ?_, ?_⟩
  · intro hf gf idx rcp ll la n h1 h2 hn
    have hni : (n != 0) = true := by simpa using hn
    simp [restantaNative, pyGetD, h1, h2, truthy, hni, pyInt, bind, Except.bind, pure, Except.pure]
    rw [show (100 : ℚ) = (10 : ℚ) ^ 2 by norm_num, pyRound_exact]
  · intro hf gf idx rcp ll la h1 h2
    simp [restantaNative, pyGetD, h1, h2, truthy, bind, Except.bind, pure, Except.pure]
  · intro hf gf idx rcp ll la h1 h2
    simp [restantaNative, pyGetD, h1, h2, truthy, bind, Except.bind, pure, Except.pure]

/-- C8 witness: raw 123456 displays as 1234.56, and an absent field as 0. -/
theorem restanta_cents_projection_witness :
    restantaNative ⟨.obj [("1", .obj [("datorie", .num 123456)])], .obj [], .obj [], .obj [], .null⟩
      = .ok ((123456 : ℚ) / 100) ∧
    restantaNative ⟨.obj [("1", .obj [])], .obj [], .obj [], .obj [], .null⟩ = .ok 0 :=
  ⟨restanta_cents_projection.1 [("1", .obj [("datorie", .num 123456)])]
      [("datorie", .num 123456)] (.obj []) (.obj []) (.obj []) .null 123456 rfl rfl (by decide),
   restanta_cents_projection.2.1 [("1", .obj [])] [] (.obj []) (.obj []) (.obj []) .null rfl rfl⟩

/-- C9: `ApaReceSensor.native_value` converts the raw `'index_nou'` field by
dividing by 1000 with three-decimal rounding, so a raw integer `n` displays
as exactly `n / 1000`, and any raw value `float` rejects yields `None`
instead of an exception. -/
theorem apaRece_volumetric_projection :
    (∀ (xf gf : List (String × JValue)) (hm rcp ll la : JValue) (n : ℤ),
      xf.lookup "2" = some (.obj gf) → gf.lookup "index_nou" = some (.num n) →
      apaReceNative ⟨hm, .obj xf, rcp, ll, la⟩ = .ok (some ((n : ℚ) / 1000))) ∧
    (∀ (xf gf : List (String × JValue)) (hm rcp ll la : JValue) (v : JValue) (e : PyErr),
      xf.lookup "2" = some (.obj gf) → gf.lookup "index_nou" = some v →
      pyFloat v = .error e →
      apaReceNative ⟨hm, .obj xf, rcp, ll, la⟩ = .ok none) := by
  constructor
  · intro xf gf hm rcp ll la n h1 h2
    simp [apaReceNative, pyGetD, h1, h2, pyFloat, bind, Except.bind, pure, Except.pure]
    rw [show (1000 : ℚ) = (10 : ℚ) ^ 3 by norm_num, pyRound_exact]
  · intro xf gf hm rcp ll la v e h1 h2 hv
    simp [apaReceNative, pyGetD, h1, h2, hv, bind, Except.bind, pure, Except.pure]

/-- C9 witness: raw 1234 displays as 1.234; raw `"abc"` yields `None`. -/
theorem apaRece_volumetric_projection_witness :
    apaReceNative ⟨.null, .obj [("2", .obj [("index_nou", .num 1234)])], .obj [], .obj [], .null⟩
      = .ok (some ((1234 : ℚ) / 1000)) ∧
    apaReceNative ⟨.null, .obj [("2", .obj [("index_nou", .str "abc")])], .obj [], .obj [], .null⟩
      = .ok none :=
  ⟨apaRece_volumetric_projection.1 [("2", .obj [("index_nou", .num 1234)])]
      [("index_nou", .num 1234)] .null (.obj []) (.obj []) .null 1234 rfl rfl,
   apaRece_volumetric_projection.2 [("2", .obj [("index_nou", .str "abc")])]
      [("index_nou", .str "abc")] .null (.obj []) (.obj []) .null (.str "abc") .valueError
      rfl rfl rfl⟩

/-- helper: an `Except` that is `ok` carries a value. -/
theorem exOk_exists {α : Type} {e : Except PyErr α} (h : e.isOk = true) :
    ∃ a, e = .ok a := by
  cases e with
  | ok a => exact ⟨a, rfl⟩
  | error _ => simp [Except.isOk, Except.toBool] at h

/-- helper: one receipt line succeeds when the receipt is a dict whose
`'suma'`, if present, is `int`-convertible. -/
theorem receiptLine_total (gs : List (String × JValue))
    (hsuma : ∀ v, gs.lookup "suma" = some v → intOk v = true) :
    (receiptLine (.obj gs)).isOk = true := by
  cases hs : gs.lookup "suma" with
  | none =>
    simp [receiptLine, pyGetD, hs, bind, Except.bind, pure, Except.pure, pyInt, Except.isOk, Except.toBool]
  | some v =>
    have hok := hsuma v hs
    cases hv : pyInt v with
    | error e => simp [intOk, hv] at hok
    | ok nn =>
      simp [receiptLine, pyGetD, hs, hv, bind, Except.bind, pure, Except.pure, Except.isOk, Except.toBool]

/-- helper: each receipt being a dict with an `int`-convertible `'suma'`
makes the receipt-lines comprehension succeed. -/
theorem receiptLines_total (i : Nat) (rs : List JValue) :
    (∀ r ∈ rs, ∃ gs : List (String × JValue), r = .obj gs ∧
      (∀ v, gs.lookup "suma" = some v → intOk v = true)) →
    ∃ a, receiptLines i rs = .ok a := by
  induction rs generalizing i with
  | nil => intro _; exact ⟨[], rfl⟩
  | cons r rest ih =>
    intro h
    obtain ⟨gs, rfl, hsuma⟩ := h r (List.mem_cons_self r rest)
    obtain ⟨line, hline⟩ := exOk_exists (receiptLine_total gs hsuma)
    obtain ⟨others, hothers⟩ := ih (i + 1) (fun r hr => h r (List.mem_cons_of_mem _ hr))
    refine ⟨("Chitanța " ++ toString i, JValue.str line) :: others, ?_⟩
    simp [receiptLines, hline, hothers, bind, Except.bind, pure, Except.pure]

/-- C7 (amended): the client and payments views' read operations never raise
and treat missing keys as absence, provided the snapshot is well-shaped
where they convert: the home `"1"` entry (when present) is a dict whose
`'datorie'` (when present) is `int`-convertible, and each receipt is a dict
whose `'suma'` (when present) is `int`-convertible.  (The provisos are what
the counterexample forces: `int()` on a present non-numeric value raises.) -/
theorem views_total (s : Snapshot)
    (hh : wfHome s.home = true) (hr : wfReceipts s.receipts = true) :
    (clientNative s).isOk = true ∧ (clientAttrs s).isOk = true ∧
    (platiAttrs s).isOk = true := by
  obtain ⟨hm, idx, rcp, ll, la⟩ := s
  simp only at hh hr
  refine ⟨?_, ?_, ?_⟩
  · cases hm with
    | obj hf =>
      cases hl : hf.lookup "1" with
      | none =>
        simp [clientNative, pyGetD, hl, bind, Except.bind, pure, Except.pure, Except.isOk, Except.toBool]
      | some v =>
        simp only [wfHome] at hh
        rw [hl] at hh
        cases v with
        | obj gs =>
          simp [clientNative, pyGetD, hl, bind, Except.bind, pure, Except.pure, Except.isOk, Except.toBool]
        | null => simp at hh
        | bool b => simp at hh
        | num n => simp at hh
        | str t => simp at hh
    | null => simp [wfHome] at hh
    | bool b => simp [wfHome] at hh
    | num n => simp [wfHome] at hh
    | str t => simp [wfHome] at hh
  · cases hm with
    | obj hf =>
      cases hl : hf.lookup "1" with
      | none =>
        simp [clientAttrs, pyGetD, hl, bind, Except.bind, pure, Except.pure, pyInt, Except.isOk, Except.toBool]
      | some v =>
        simp only [wfHome] at hh
        rw [hl] at hh
        cases v with
        | obj gs =>
          simp only at hh
          cases hdl : gs.lookup "datorie" with
          | none =>
            simp [clientAttrs, pyGetD, hl, hdl, bind, Except.bind, pure, Except.pure, pyInt,
              Except.isOk, Except.toBool]
          | some dv =>
            rw [hdl] at hh
            simp only at hh
            cases hv : pyInt dv with
            | error e => simp [intOk, hv] at hh
            | ok nn =>
              simp [clientAttrs, pyGetD, hl, hdl, hv, bind, Except.bind, pure, Except.pure,
                Except.isOk, Except.toBool]
        | null => simp at hh
        | bool b => simp at hh
        | num n => simp at hh
        | str t => simp at hh
    | null => simp [wfHome] at hh
    | bool b => simp [wfHome] at hh
    | num n => simp [wfHome] at hh
    | str t => simp [wfHome] at hh
  · cases rcp with
    | obj fields =>
      simp only [wfReceipts, List.all_eq_true] at hr
      have h : ∀ r ∈ fields.map Prod.snd, ∃ gs : List (String × JValue), r = .obj gs ∧
          (∀ v, gs.lookup "suma" = some v → intOk v = true) := by
        intro r hrm
        obtain ⟨p, hp, rfl⟩ := List.mem_map.mp hrm
        have hpp := hr p hp
        cases hpv : p.2 with
        | obj gs =>
          rw [hpv] at hpp
          simp only at hpp
          refine ⟨gs, rfl, ?_⟩
          intro v hv
          rw [hv] at hpp
          simpa using hpp
        | null => rw [hpv] at hpp; simp at hpp
        | bool b => rw [hpv] at hpp; simp at hpp
        | num n => rw [hpv] at hpp; simp at hpp
        | str t => rw [hpv] at hpp; simp at hpp
      obtain ⟨a, ha⟩ := receiptLines_total 1 (fields.map Prod.snd) h
      simp [platiAttrs, ha, Except.isOk, Except.toBool]
    | null => simp [platiAttrs, Except.isOk, Except.toBool]
    | bool b => simp [platiAttrs, Except.isOk, Except.toBool]
    | num n => simp [platiAttrs, Except.isOk, Except.toBool]
    | str t => simp [platiAttrs, Except.isOk, Except.toBool]

/-- C7 witness: on an all-empty snapshot every read succeeds. -/
theorem views_total_witness :
    (clientAttrs ⟨.obj [], .obj [], .obj [], .obj [], .null⟩).isOk = true :=
  (views_total ⟨.obj [], .obj [], .obj [], .obj [], .null⟩ rfl rfl).2.1

/-- C7 counterexample: a snapshot whose `'datorie'` is the string `"abc"`
makes `ClientSensor.extra_state_attributes` raise `ValueError` — the
claim's unconditional totality is false. -/
theorem clientAttrs_nonnumeric_raises :
    clientAttrs ⟨.obj [("1", .obj [("datorie", .str "abc")])], .obj [], .obj [], .obj [], .null⟩
      = .error .valueError := rfl
